import Mathlib

/-!
Shallow embedding of `src/server.js` of the solana-tracker repository.

The pipeline parses Solana transactions into swap/mint records and formats
them for notification.  JavaScript values are modelled as follows:

* a JS number that may be `NaN` (as produced by arithmetic on an
  out-of-range array read, which yields `undefined`) is `Option ℚ`
  (`none` = NaN, `some q` = the real value, rationals standing in for the
  exact values the doubles denote);
* a field that may be `null`/`undefined` is an `Option`;
* code wrapped in `try { ... } catch { return null }` is a function into
  `Option`, returning `none` exactly where the JS would throw
  (a property access on `undefined`/`null`);
* the external ledger query of the mint resolver is an explicit
  environment `MintEnv`; a rejected promise is `Except.error`.
-/

namespace SolanaTracker

/-- A JS number: `none` is NaN, `some q` an exact real value. -/
abbrev JSNum := Option ℚ

/-- JS subtraction: NaN-propagating (and `undefined - x` is NaN). -/
def jsSub : JSNum → JSNum → JSNum
  | some a, some b => some (a - b)
  | _, _ => none

/-- JS division by a non-zero constant: NaN-propagating. -/
def jsDivConst (x : JSNum) (c : ℚ) : JSNum := x.map (fun a => a / c)

/-- JS comparison `x < 0`: false when `x` is NaN. -/
def jsLtZero : JSNum → Bool
  | some a => decide (a < 0)
  | none => false

/-- JS `Math.abs`: NaN-propagating. -/
def jsAbs : JSNum → JSNum := Option.map (fun a => |a|)

/-- Left-pad a digit string with zeros to 6 characters. -/
def padZeros6 (s : String) : String :=
  String.mk (List.replicate (6 - s.length) '0') ++ s

/-- JS `Number.prototype.toFixed(6)` on an exact value: per ECMA-262, the
sign is split off first and the magnitude is rounded to the integer `n`
minimising `|n / 10^6 - x|`, ties towards the larger `n`, i.e.
`n = ⌊|x| * 10^6 + 1/2⌋`. -/
def toFixed6 (q : ℚ) : String :=
  let sign := if q < 0 then "-" else ""
  let n : ℕ := (⌊|q| * 1000000 + 1 / 2⌋).toNat
  sign ++ toString (n / 1000000) ++ "." ++ padZeros6 (toString (n % 1000000))

/-- Does the character list start with `pat`? (helper for substring search). -/
def startsWithList : List Char → List Char → Bool
  | [], _ => true
  | _ :: _, [] => false
  | a :: as, b :: bs => a == b && startsWithList as bs

/-- Does the character list contain `pat` as a contiguous sublist? -/
def containsList (pat : List Char) : List Char → Bool
  | [] => pat.isEmpty
  | c :: rest => startsWithList pat (c :: rest) || containsList pat rest

/-- JS `String.prototype.includes`. -/
def jsIncludes (s pat : String) : Bool := containsList pat.toList s.toList

/- ===== Data model (`RawTransactionDetail` as consumed by server.js) ===== -/

/-- One entry of `transaction.message.accountKeys`. -/
structure AccountKey where
  pubkey : String
  signer : Bool
deriving DecidableEq

/-- `ix.parsed.info` of a parsed instruction.  On-ledger token amounts are
u64, hence `ℕ`; the field may be absent (`undefined`). -/
structure TransferInfo where
  amount : Option ℕ
  source : String
  destination : String
deriving DecidableEq

/-- `ix.parsed` of an inner instruction. -/
structure ParsedInstruction where
  type : String
  info : TransferInfo
deriving DecidableEq

/-- One inner instruction `ix`; `parsed` is absent for non-parsed
instructions. -/
structure InnerInstructionEntry where
  parsed : Option ParsedInstruction
deriving DecidableEq

/-- One group of `meta.innerInstructions`. -/
structure InnerInstructionGroup where
  instructions : List InnerInstructionEntry
deriving DecidableEq

/-- `meta` of a transaction detail.  Balances are lamport amounts (JS
numbers holding integers). -/
structure TxMeta where
  preBalances : List ℤ
  postBalances : List ℤ
  innerInstructions : Option (List InnerInstructionGroup)
deriving DecidableEq

/-- `transaction.message`. -/
structure TxMessage where
  accountKeys : List AccountKey
deriving DecidableEq

/-- `transaction`. -/
structure TxTransaction where
  message : TxMessage
  signatures : List String
deriving DecidableEq

/-- One parsed transaction detail; `meta` may be `null`/absent. -/
structure TxDetail where
  meta : Option TxMeta
  transaction : TxTransaction
deriving DecidableEq

/-- The argument `txDetails` of `parseTransaction` /
`calculateNativeBalanceChanges`: `getParsedTransactions` may yield
`null`/`undefined` (outer `none`) and its array entries may be `null`. -/
abbrev TxDetails := Option (List (Option TxDetail))

/-- Result of `calculateNativeBalanceChanges`. -/
structure NativeBalanceChange where
  type : String
  balanceChange : JSNum
deriving DecidableEq

/-- One token transfer collected by `parseTransaction` (amount is the raw,
unscaled u64 value, known non-zero at collection time). -/
structure TokenTransfer where
  amount : ℕ
  source : String
  destination : String
deriving DecidableEq

/-- One leg (`tokenIn` / `tokenOut`) of the emitted record; `mint` is
`null` when resolution failed, `amount` is the `toFixed(6)` string. -/
structure TokenLeg where
  mint : Option String
  amount : String
deriving DecidableEq

/-- The emitted record, in the field order of the object literal returned
by `parseTransaction`. -/
structure ParsedSwap where
  type : String
  monitored_wallet : Option String
  dex : Option String
  operation : Option String
  tokenIn : TokenLeg
  tokenOut : TokenLeg
  signature : Option String
deriving DecidableEq

/-- Result of `identifyDex` (field names as in server.js: `dex`, `type`). -/
structure DexInfo where
  dex : Option String
  type : Option String
deriving DecidableEq

/- ===== Mint resolver environment ===== -/

/-- `accountInfo.value.data.parsed.info` — the token-account payload. -/
structure AcctInfo where
  mint : Option String

/-- `accountInfo.value.data.parsed`. -/
structure AcctParsed where
  info : Option AcctInfo

/-- `accountInfo.value.data`. -/
structure AcctData where
  parsed : Option AcctParsed

/-- `accountInfo.value` — the account, when it exists. -/
structure AcctValue where
  data : Option AcctData

/-- Result of `connection.getParsedAccountInfo`. -/
structure AccountInfoResult where
  value : Option AcctValue

/-- The external ledger: per address, either a query failure (rejected
promise / bad key) or a `getParsedAccountInfo` result. -/
abbrev MintEnv := String → Except Unit AccountInfoResult

/- ===== TokenUtils ===== -/

/-- `TokenUtils.getTokenMintAddress` (server.js lines 113-123):
optional-chain down to `.mint`, JS `|| null` collapsing a falsy mint (the
empty string) to `null`; any thrown error is caught and becomes `null`. -/
def getTokenMintAddress (env : MintEnv) (accountAddress : String) : Option String :=
  match env accountAddress with
  | Except.error _ => none
  | Except.ok accountInfo =>
    match (((accountInfo.value.bind AcctValue.data).bind AcctData.parsed).bind
        AcctParsed.info).bind AcctInfo.mint with
    | none => none
    | some m => if m = "" then none else some m

/-- `TokenUtils.calculateNativeBalanceChanges` (server.js lines 132-146).
The `try` block throws (⇒ `none`) exactly when `txDetails`, its first
element, or `meta` is absent; an out-of-range `[0]` read yields
`undefined` and flows on as NaN. -/
def calculateNativeBalanceChanges (transactionDetails : TxDetails) :
    Option NativeBalanceChange :=
  match transactionDetails with
  | none => none
  | some txList =>
    match txList.head? with
    | none => none
    | some none => none
    | some (some d) =>
      match d.meta with
      | none => none
      | some m =>
        let preBalance : JSNum := (m.preBalances.head?).map (fun i => (i : ℚ))
        let postBalance : JSNum := (m.postBalances.head?).map (fun i => (i : ℚ))
        let balanceChange := jsDivConst (jsSub postBalance preBalance) 1000000000
        some { type := if jsLtZero balanceChange then "buy" else "sell",
               balanceChange := jsAbs balanceChange }

/- ===== TransactionParser ===== -/

/-- The per-instruction test of the transfer-collection loop
(server.js lines 185-193): `ix.parsed?.type === 'transfer' &&
ix.parsed.info.amount` (a zero or absent amount is falsy). -/
def transferOfInstruction (ix : InnerInstructionEntry) : Option TokenTransfer :=
  match ix.parsed with
  | none => none
  | some p =>
    if p.type = "transfer" then
      match p.info.amount with
      | none => none
      | some n =>
        if n ≠ 0 then
          some { amount := n, source := p.info.source,
                 destination := p.info.destination }
        else none
    else none

/-- The transfer-collection loop of `parseTransaction` (server.js lines
183-194): walk `meta?.innerInstructions?` groups in order and collect
matching instructions in order. -/
def extractTransfers (d : TxDetail) : List TokenTransfer :=
  match d.meta with
  | none => []
  | some m =>
    match m.innerInstructions with
    | none => []
    | some groups =>
      groups.flatMap (fun g => g.instructions.filterMap transferOfInstruction)

/-- `TransactionParser.parseTransaction` (server.js lines 170-226). -/
def parseTransaction (env : MintEnv) (txDetails : TxDetails) (dexInfo : DexInfo) :
    Option ParsedSwap :=
  match txDetails with
  | none => none
  | some txList =>
    match txList.head? with
    | none => none
    | some none => none
    | some (some d) =>
      match calculateNativeBalanceChanges txDetails with
      | none => none
      | some nativeBalance =>
        let owner :=
          (d.transaction.message.accountKeys.find? (fun a => a.signer)).map
            AccountKey.pubkey
        let transfers := extractTransfers d
        match transfers.head?, transfers.getLast? with
        | some firstTransfer, some lastTransfer =>
          some {
            type := nativeBalance.type,
            monitored_wallet := owner,
            dex := dexInfo.dex,
            operation := dexInfo.type,
            tokenIn := { mint := getTokenMintAddress env lastTransfer.source,
                         amount := toFixed6 ((lastTransfer.amount : ℚ) / 1000000000) },
            tokenOut := { mint := getTokenMintAddress env firstTransfer.destination,
                          amount := toFixed6 ((firstTransfer.amount : ℚ) / 1000000000) },
            signature := d.transaction.signatures.head? }
        | _, _ => none

/- ===== SolanaMonitor.identifyDex ===== -/

/-- `PROGRAMS.JUPITER`. -/
def PROGRAMS_JUPITER : String := "JUP6LkbZbjS1jKKwapdHNy74zcZ3tLUZoi5QNyVTaV4"

/-- `PROGRAMS.RAYDIUM`. -/
def PROGRAMS_RAYDIUM : String := "675kPX9MHTjS2zt1qfr1NYHuzeLXfQM9H24wFSUt1Mp8"

/-- `PROGRAMS.PUMP_FUN`. -/
def PROGRAMS_PUMP_FUN : String := "6EF8rrecthR5Dkzon8Nwu78hRvfCKubJ14M5uBEwF6P"

/-- `PROGRAMS.PUMP_FUN_TOKEN_MINT_AUTH`. -/
def PROGRAMS_PUMP_FUN_TOKEN_MINT_AUTH : String :=
  "TSLvdd1pWpHVjahSpsvCXUbgwsL3JAcvokwaKt1eokM"

/-- `SolanaMonitor.identifyDex` (server.js lines 287-306): join the log
lines with spaces and test the program-id substrings in fixed priority
order. -/
def identifyDex (logs : Option (List String)) : DexInfo :=
  match logs with
  | none => { dex := none, type := none }
  | some ls =>
    if ls.length = 0 then { dex := none, type := none }
    else
      let logString := String.intercalate " " ls
      if jsIncludes logString PROGRAMS_PUMP_FUN_TOKEN_MINT_AUTH then
        { dex := some "Pump.fun", type := some "mint" }
      else if jsIncludes logString PROGRAMS_PUMP_FUN then
        { dex := some "Pump.fun", type := some "swap" }
      else if jsIncludes logString PROGRAMS_JUPITER then
        { dex := some "Jupiter", type := some "swap" }
      else if jsIncludes logString PROGRAMS_RAYDIUM then
        { dex := some "Raydium", type := some "swap" }
      else { dex := none, type := none }

/- ===== formatJsonToString ===== -/

/-- A JSON value as fed to `formatJsonToString`: `jnull` stands for both
JS `null` and `undefined` (the formatter treats them alike); all leaf
values of the emitted record are strings; `jobj` keeps insertion order. -/
inductive JValue where
  | jnull : JValue
  | jstr : String → JValue
  | jobj : List (String × JValue) → JValue

/-- `processObject` of `formatJsonToString` (server.js lines 51-62): skip
null/undefined values, recurse into nested objects with the fixed
two-space indent, emit `key: value` lines otherwise. -/
def processFields : String → List (String × JValue) → List String
  | _, [] => []
  | pre, (_, JValue.jnull) :: rest => processFields pre rest
  | pre, (k, JValue.jstr s) :: rest =>
      (pre ++ k ++ ": " ++ s) :: processFields pre rest
  | pre, (k, JValue.jobj fs) :: rest =>
      (pre ++ k ++ ":") :: (processFields "  " fs ++ processFields pre rest)

/-- `formatJsonToString` (server.js lines 48-66). -/
def formatJsonToString (fields : List (String × JValue)) : String :=
  String.intercalate "\n" (processFields "" fields)

/-- Embed an `Option String` field of the record as the JSON value the JS
object carries (`null`/`undefined` for `none`). -/
def optStr : Option String → JValue
  | none => JValue.jnull
  | some s => JValue.jstr s

/-- The emitted record as the JSON object handed to `formatJsonToString`
by the monitor loop, in the field order of `parseTransaction`'s return. -/
def encodeParsedSwap (r : ParsedSwap) : List (String × JValue) :=
  [("type", JValue.jstr r.type),
   ("monitored_wallet", optStr r.monitored_wallet),
   ("dex", optStr r.dex),
   ("operation", optStr r.operation),
   ("tokenIn", JValue.jobj
      [("mint", optStr r.tokenIn.mint), ("amount", JValue.jstr r.tokenIn.amount)]),
   ("tokenOut", JValue.jobj
      [("mint", optStr r.tokenOut.mint), ("amount", JValue.jstr r.tokenOut.amount)]),
   ("signature", optStr r.signature)]

/- ===== Concrete inputs used by the closed tests and witnesses ===== -/

/-- The round-trip input transaction of the spec: fee payer moves from 2
SOL to 1 SOL, one inner transfer of 5e9 raw units from "X" to "Y", a
signer account and one signature. -/
def txDetailRT : TxDetail :=
  { meta := some
      { preBalances := [2000000000], postBalances := [1000000000],
        innerInstructions := some
          [{ instructions :=
              [{ parsed := some
                  { type := "transfer",
                    info := { amount := some 5000000000,
                              source := "X", destination := "Y" } } }] }] },
    transaction :=
      { message := { accountKeys := [{ pubkey := "W", signer := true }] },
        signatures := ["SIG1"] } }

/-- The round-trip input wrapped as `getParsedTransactions` output. -/
def txdRoundTrip : TxDetails := some [some txDetailRT]

/-- A ledger in which "X" and "Y" are token accounts with known mints and
every other account query returns no value. -/
def mintEnvA : MintEnv := fun addr =>
  if addr = "X" then Except.ok ⟨some ⟨some ⟨some ⟨some ⟨some "MINTX"⟩⟩⟩⟩⟩
  else if addr = "Y" then Except.ok ⟨some ⟨some ⟨some ⟨some ⟨some "MINTY"⟩⟩⟩⟩⟩
  else Except.ok ⟨none⟩

/-- A ledger in which the query for "X" fails and "Y" resolves. -/
def mintEnvFailX : MintEnv := fun addr =>
  if addr = "Y" then Except.ok ⟨some ⟨some ⟨some ⟨some ⟨some "MINTY"⟩⟩⟩⟩⟩
  else Except.error ()

/-- The matched label of the round-trip scenario. -/
def dexJupiter : DexInfo := { dex := some "Jupiter", type := some "swap" }

/-- The record the round-trip scenario must produce. -/
def swapRoundTrip : ParsedSwap :=
  { type := "buy", monitored_wallet := some "W",
    dex := some "Jupiter", operation := some "swap",
    tokenIn := { mint := some "MINTX", amount := "5.000000" },
    tokenOut := { mint := some "MINTY", amount := "5.000000" },
    signature := some "SIG1" }

/-- A detail whose balance arrays are present but empty: the reads at
index 0 yield `undefined`, not an exception. -/
def txDetailEmptyBalances : TxDetail :=
  { meta := some { preBalances := [], postBalances := [], innerInstructions := none },
    transaction := { message := { accountKeys := [] }, signatures := [] } }

/-- A detail with valid balances and no inner instructions at all. -/
def txDetailNoTransfers : TxDetail :=
  { meta := some { preBalances := [2000000000], postBalances := [1000000000],
                   innerInstructions := none },
    transaction := { message := { accountKeys := [] }, signatures := ["S"] } }

/- ===== Helper lemmas ===== -/

theorem jsSub_none_left (y : JSNum) : jsSub none y = none := by
  cases y <;> rfl

theorem jsSub_none_right (x : JSNum) : jsSub x none = none := by
  cases x <;> rfl

/-- Evaluation of `calculateNativeBalanceChanges` on a well-shaped detail,
with the balance delta left symbolic. -/
theorem calcNative_eval (txd : TxDetails) (txList : List (Option TxDetail))
    (d : TxDetail) (m : TxMeta) (pre0 post0 : ℤ) (pres posts : List ℤ)
    (h1 : txd = some txList) (h2 : txList.head? = some (some d))
    (h3 : d.meta = some m)
    (h4 : m.preBalances = pre0 :: pres) (h5 : m.postBalances = post0 :: posts) :
    calculateNativeBalanceChanges txd =
      some { type := if ((post0 : ℚ) - (pre0 : ℚ)) / 1000000000 < 0 then "buy" else "sell",
             balanceChange := some |((post0 : ℚ) - (pre0 : ℚ)) / 1000000000| } := by
  subst h1
  simp [calculateNativeBalanceChanges, h2, h3, h4, h5, jsSub, jsDivConst, jsLtZero, jsAbs]

/-- `toFixed(6)` of the scaled round-trip transfer amount. -/
theorem toFixed6_roundTrip :
    toFixed6 (((5000000000 : ℕ) : ℚ) / 1000000000) = "5.000000" := by
  have hq : (((5000000000 : ℕ) : ℚ) / 1000000000) = 5 := by norm_num
  rw [hq]
  unfold toFixed6
  rw [if_neg (by norm_num : ¬ (5 : ℚ) < 0),
      abs_of_nonneg (by norm_num : (0 : ℚ) ≤ 5)]
  have hf : ⌊(5 : ℚ) * 1000000 + 1 / 2⌋ = 5000000 := by
    rw [Int.floor_eq_iff]
    norm_num
  rw [hf]
  rfl

/-- The native-balance result of the round-trip input. -/
theorem calcNative_roundTrip :
    calculateNativeBalanceChanges txdRoundTrip =
      some { type := "buy", balanceChange := some 1 } := by
  have h := calcNative_eval txdRoundTrip [some txDetailRT] txDetailRT
    (m := { preBalances := [2000000000], postBalances := [1000000000],
            innerInstructions := some
              [{ instructions :=
                  [{ parsed := some
                      { type := "transfer",
                        info := { amount := some 5000000000,
                                  source := "X", destination := "Y" } } }] }] })
    2000000000 1000000000 [] [] rfl rfl rfl rfl rfl
  rw [h]
  have hx : (((1000000000 : ℤ) : ℚ) - ((2000000000 : ℤ) : ℚ)) / 1000000000 = -1 := by
    norm_num
  rw [hx, if_pos (by norm_num : (-1 : ℚ) < 0)]
  norm_num

/-- The generic shape of a successful `parseTransaction` run. -/
theorem parseTransaction_eq_some
    (env : MintEnv) (txd : TxDetails) (dexInfo : DexInfo)
    (txList : List (Option TxDetail)) (d : TxDetail) (nb : NativeBalanceChange)
    (ft lt : TokenTransfer)
    (h1 : txd = some txList) (h2 : txList.head? = some (some d))
    (h3 : calculateNativeBalanceChanges txd = some nb)
    (h4 : (extractTransfers d).head? = some ft)
    (h5 : (extractTransfers d).getLast? = some lt) :
    parseTransaction env txd dexInfo = some {
      type := nb.type,
      monitored_wallet :=
        (d.transaction.message.accountKeys.find? (fun a => a.signer)).map
          AccountKey.pubkey,
      dex := dexInfo.dex,
      operation := dexInfo.type,
      tokenIn := { mint := getTokenMintAddress env lt.source,
                   amount := toFixed6 ((lt.amount : ℚ) / 1000000000) },
      tokenOut := { mint := getTokenMintAddress env ft.destination,
                    amount := toFixed6 ((ft.amount : ℚ) / 1000000000) },
      signature := d.transaction.signatures.head? } := by
  subst h1
  simp [parseTransaction, h2, h3, h4, h5]

/-- Full evaluation of the round-trip scenario. -/
theorem parse_roundTrip_eval :
    parseTransaction mintEnvA txdRoundTrip dexJupiter = some swapRoundTrip := by
  have h := parseTransaction_eq_some mintEnvA txdRoundTrip dexJupiter
    [some txDetailRT] txDetailRT { type := "buy", balanceChange := some 1 }
    ⟨5000000000, "X", "Y"⟩ ⟨5000000000, "X", "Y"⟩
    rfl rfl calcNative_roundTrip rfl rfl
  rw [h]
  simp only [toFixed6_roundTrip]
  rfl

/-- Inversion: a successful `parseTransaction` run determines the shape of
its input and the emitted record. -/
theorem parseTransaction_some_inv
    (env : MintEnv) (txd : TxDetails) (dexInfo : DexInfo) (r : ParsedSwap)
    (h : parseTransaction env txd dexInfo = some r) :
    ∃ (txList : List (Option TxDetail)) (d : TxDetail)
      (nb : NativeBalanceChange) (ft lt : TokenTransfer),
      txd = some txList ∧ txList.head? = some (some d) ∧
      calculateNativeBalanceChanges txd = some nb ∧
      (extractTransfers d).head? = some ft ∧
      (extractTransfers d).getLast? = some lt ∧
      r = { type := nb.type,
            monitored_wallet :=
              (d.transaction.message.accountKeys.find? (fun a => a.signer)).map
                AccountKey.pubkey,
            dex := dexInfo.dex,
            operation := dexInfo.type,
            tokenIn := { mint := getTokenMintAddress env lt.source,
                         amount := toFixed6 ((lt.amount : ℚ) / 1000000000) },
            tokenOut := { mint := getTokenMintAddress env ft.destination,
                          amount := toFixed6 ((ft.amount : ℚ) / 1000000000) },
            signature := d.transaction.signatures.head? } := by
  cases txd with
  | none => exact absurd h (by simp [parseTransaction])
  | some txList =>
    cases hh : txList.head? with
    | none => exact absurd h (by simp [parseTransaction, hh])
    | some od =>
      cases od with
      | none => exact absurd h (by simp [parseTransaction, hh])
      | some d =>
        cases hnb : calculateNativeBalanceChanges (some txList) with
        | none => exact absurd h (by simp [parseTransaction, hh, hnb])
        | some nb =>
          cases hft : (extractTransfers d).head? with
          | none =>
            cases hlt : (extractTransfers d).getLast? with
            | none => exact absurd h (by simp [parseTransaction, hh, hnb, hft, hlt])
            | some lt => exact absurd h (by simp [parseTransaction, hh, hnb, hft, hlt])
          | some ft =>
            cases hlt : (extractTransfers d).getLast? with
            | none => exact absurd h (by simp [parseTransaction, hh, hnb, hft, hlt])
            | some lt =>
              have heq := parseTransaction_eq_some env (some txList) dexInfo
                txList d nb ft lt rfl hh hnb hft hlt
              rw [heq] at h
              exact ⟨txList, d, nb, ft, lt, rfl, hh, rfl, hft, hlt,
                (Option.some.inj h).symm⟩

/- ===== Claim theorems ===== -/

/-- C3: native-balance classification is a pure function of the pair
(preBalance[0], postBalance[0]): with delta = (post - pre) / 1e9 the
result has direction "buy" when delta < 0 and "sell" otherwise (so in
particular "sell" when pre = post), with magnitude |delta|. -/
theorem c3_native_balance_classification
    (txd : TxDetails) (txList : List (Option TxDetail)) (d : TxDetail)
    (m : TxMeta) (pre0 post0 : ℤ) (pres posts : List ℤ)
    (h1 : txd = some txList) (h2 : txList.head? = some (some d))
    (h3 : d.meta = some m)
    (h4 : m.preBalances = pre0 :: pres) (h5 : m.postBalances = post0 :: posts) :
    calculateNativeBalanceChanges txd =
      some { type := if ((post0 : ℚ) - (pre0 : ℚ)) / 1000000000 < 0
                      then "buy" else "sell",
             balanceChange := some |((post0 : ℚ) - (pre0 : ℚ)) / 1000000000| } ∧
    (pre0 = post0 →
      calculateNativeBalanceChanges txd =
        some { type := "sell", balanceChange := some 0 }) := by
  refine ⟨calcNative_eval txd txList d m pre0 post0 pres posts h1 h2 h3 h4 h5, ?_⟩
  intro heq
  subst heq
  rw [calcNative_eval txd txList d m pre0 pre0 pres posts h1 h2 h3 h4 h5]
  norm_num

/-- C3 witness: a transaction with pre = post = 5 lamports is classified
as a "sell" of magnitude 0. -/
theorem c3_witness :
    calculateNativeBalanceChanges
      (some [some { meta := some { preBalances := [5], postBalances := [5],
                                   innerInstructions := none },
                    transaction := { message := { accountKeys := [] },
                                     signatures := [] } }]) =
      some { type := "sell", balanceChange := some 0 } :=
  (c3_native_balance_classification
    (some [some { meta := some { preBalances := [5], postBalances := [5],
                                 innerInstructions := none },
                  transaction := { message := { accountKeys := [] },
                                   signatures := [] } }])
    [some { meta := some { preBalances := [5], postBalances := [5],
                           innerInstructions := none },
            transaction := { message := { accountKeys := [] },
                             signatures := [] } }]
    { meta := some { preBalances := [5], postBalances := [5],
                     innerInstructions := none },
      transaction := { message := { accountKeys := [] }, signatures := [] } }
    { preBalances := [5], postBalances := [5], innerInstructions := none }
    5 5 [] [] rfl rfl rfl rfl rfl).2 rfl

/-- C4 counterexample: with `meta` present but both balance arrays empty
(index 0 out of range), the analyzer does NOT return null — the JS reads
yield `undefined`, the delta is NaN, `NaN < 0` is false, and a "sell"
classification with NaN magnitude is returned. -/
theorem c4_counterexample :
    calculateNativeBalanceChanges (some [some txDetailEmptyBalances]) =
      some { type := "sell", balanceChange := none } ∧
    calculateNativeBalanceChanges (some [some txDetailEmptyBalances]) ≠ none := by
  constructor
  · rfl
  · intro h
    simp [txDetailEmptyBalances, calculateNativeBalanceChanges] at h

/-- C4 (amended): the analyzer returns null exactly when the wrapper, its
first element, or `meta` is absent (the cases where the JS property chain
throws); when the balance arrays are present but index 0 is out of range
it instead returns a "sell" classification with NaN magnitude. -/
theorem c4_amended_shape_failures :
    (∀ txd : TxDetails,
      calculateNativeBalanceChanges txd = none ↔
        ¬ ∃ (txList : List (Option TxDetail)) (d : TxDetail) (m : TxMeta),
            txd = some txList ∧ txList.head? = some (some d) ∧ d.meta = some m) ∧
    (∀ (txd : TxDetails) (txList : List (Option TxDetail)) (d : TxDetail)
       (m : TxMeta),
      txd = some txList → txList.head? = some (some d) → d.meta = some m →
      (m.preBalances = [] ∨ m.postBalances = []) →
      calculateNativeBalanceChanges txd =
        some { type := "sell", balanceChange := none }) := by
  constructor
  · intro txd
    constructor
    · intro h hex
      obtain ⟨txList, d, m, rfl, h2, h3⟩ := hex
      simp [calculateNativeBalanceChanges, h2, h3] at h
    · intro hne
      match txd with
      | none => rfl
      | some txList =>
        match hh : txList.head? with
        | none => simp [calculateNativeBalanceChanges, hh]
        | some none => simp [calculateNativeBalanceChanges, hh]
        | some (some d) =>
          match hm : d.meta with
          | none => simp [calculateNativeBalanceChanges, hh, hm]
          | some m => exact absurd ⟨txList, d, m, rfl, hh, hm⟩ hne
  · intro txd txList d m h1 h2 h3 h4
    subst h1
    rcases h4 with h4 | h4 <;>
      simp [calculateNativeBalanceChanges, h2, h3, h4, jsSub_none_left,
            jsSub_none_right, jsDivConst, jsLtZero, jsAbs]

/-- C4 witness: the amended behaviour at concrete inputs — an absent
wrapper yields null, and empty balance arrays yield the sell/NaN record. -/
theorem c4_witness :
    calculateNativeBalanceChanges (none : TxDetails) = none ∧
    calculateNativeBalanceChanges (some [some txDetailEmptyBalances]) =
      some { type := "sell", balanceChange := none } := by
  constructor
  · exact (c4_amended_shape_failures.1 none).mpr (by
      rintro ⟨txList, d, m, h, -, -⟩
      cases h)
  · exact c4_amended_shape_failures.2 (some [some txDetailEmptyBalances])
      [some txDetailEmptyBalances] txDetailEmptyBalances
      { preBalances := [], postBalances := [], innerInstructions := none }
      rfl rfl rfl (Or.inl rfl)

/-- C5: whenever zero transfers are extracted from the inner-instruction
container, `parseTransaction` returns null, whether or not the
native-balance computation succeeded. -/
theorem c5_zero_transfers_no_result
    (env : MintEnv) (txd : TxDetails) (dexInfo : DexInfo)
    (txList : List (Option TxDetail)) (d : TxDetail)
    (h1 : txd = some txList) (h2 : txList.head? = some (some d))
    (h3 : extractTransfers d = []) :
    parseTransaction env txd dexInfo = none := by
  subst h1
  cases hnb : calculateNativeBalanceChanges (some txList) with
  | none => simp [parseTransaction, h2, hnb]
  | some nb => simp [parseTransaction, h2, hnb, h3]

/-- C5 witness: a detail with valid balances (so the native-balance step
succeeds) but no inner instructions parses to null. -/
theorem c5_witness :
    parseTransaction mintEnvA (some [some txDetailNoTransfers]) dexJupiter = none :=
  c5_zero_transfers_no_result mintEnvA (some [some txDetailNoTransfers]) dexJupiter
    [some txDetailNoTransfers] txDetailNoTransfers rfl rfl rfl

/-- C6: the round-trip scenario — pre 2e9 / post 1e9 lamports, a single
inner transfer of 5e9 raw units from "X" to "Y", label Jupiter/swap and a
signer present — parses to the record with direction "buy", dex
"Jupiter", operation "swap", both amounts "5.000000" and the first
signature of the transaction. -/
theorem c6_round_trip :
    parseTransaction mintEnvA txdRoundTrip dexJupiter = some swapRoundTrip ∧
    swapRoundTrip.type = "buy" ∧ swapRoundTrip.dex = some "Jupiter" ∧
    swapRoundTrip.operation = some "swap" ∧
    swapRoundTrip.tokenIn.amount = "5.000000" ∧
    swapRoundTrip.tokenOut.amount = "5.000000" ∧
    swapRoundTrip.signature = txDetailRT.transaction.signatures.head? :=
  ⟨parse_roundTrip_eval, rfl, rfl, rfl, rfl, rfl, rfl⟩

/-- C1: whenever a record is emitted, its tokenIn mint is resolved from
the LAST extracted transfer's source account and its tokenOut mint from
the FIRST extracted transfer's destination account; with exactly one
transfer both legs resolve from that same transfer. -/
theorem c1_mints_from_last_source_first_destination
    (env : MintEnv) (txd : TxDetails) (dexInfo : DexInfo)
    (txList : List (Option TxDetail)) (d : TxDetail) (nb : NativeBalanceChange)
    (ft lt : TokenTransfer)
    (h1 : txd = some txList) (h2 : txList.head? = some (some d))
    (h3 : calculateNativeBalanceChanges txd = some nb)
    (h4 : (extractTransfers d).head? = some ft)
    (h5 : (extractTransfers d).getLast? = some lt) :
    (∃ r, parseTransaction env txd dexInfo = some r ∧
       r.tokenIn.mint = getTokenMintAddress env lt.source ∧
       r.tokenOut.mint = getTokenMintAddress env ft.destination) ∧
    (∀ t : TokenTransfer, extractTransfers d = [t] →
       ∃ r, parseTransaction env txd dexInfo = some r ∧
         r.tokenIn.mint = getTokenMintAddress env t.source ∧
         r.tokenOut.mint = getTokenMintAddress env t.destination) := by
  constructor
  · exact ⟨_, parseTransaction_eq_some env txd dexInfo txList d nb ft lt
      h1 h2 h3 h4 h5, rfl, rfl⟩
  · intro t ht
    rw [ht] at h4 h5
    simp only [List.head?_cons, List.getLast?_singleton, Option.some.injEq] at h4 h5
    subst h4
    subst h5
    exact ⟨_, parseTransaction_eq_some env txd dexInfo txList d nb t t
      h1 h2 h3 (by rw [ht]; rfl) (by rw [ht]; rfl), rfl, rfl⟩

/-- C1 witness: in the round-trip input the single transfer is both first
and last; both mints resolve through its source "X" and destination "Y". -/
theorem c1_witness :
    ∃ r, parseTransaction mintEnvA txdRoundTrip dexJupiter = some r ∧
      r.tokenIn.mint = getTokenMintAddress mintEnvA "X" ∧
      r.tokenOut.mint = getTokenMintAddress mintEnvA "Y" :=
  (c1_mints_from_last_source_first_destination mintEnvA txdRoundTrip dexJupiter
    [some txDetailRT] txDetailRT { type := "buy", balanceChange := some 1 }
    ⟨5000000000, "X", "Y"⟩ ⟨5000000000, "X", "Y"⟩
    rfl rfl calcNative_roundTrip rfl rfl).2 ⟨5000000000, "X", "Y"⟩ rfl

/-- C2: `identifyDex` tests the joined log text for the program ids in
fixed priority order; any log list whose joined text contains both the
pump.fun mint-authority id and the Jupiter id yields {Pump.fun, mint},
never Jupiter. -/
theorem c2_dex_priority
    (logs : List String)
    (h1 : jsIncludes (String.intercalate " " logs)
            PROGRAMS_PUMP_FUN_TOKEN_MINT_AUTH = true)
    (h2 : jsIncludes (String.intercalate " " logs) PROGRAMS_JUPITER = true) :
    identifyDex (some logs) = { dex := some "Pump.fun", type := some "mint" } := by
  cases logs with
  | nil => exact absurd h1 (by decide)
  | cons a as => simp [identifyDex, h1]

/-- C2 witness: a log list mentioning both the pump.fun mint authority
and the Jupiter program resolves to {Pump.fun, mint}. -/
theorem c2_witness :
    identifyDex (some [PROGRAMS_PUMP_FUN_TOKEN_MINT_AUTH, PROGRAMS_JUPITER]) =
      { dex := some "Pump.fun", type := some "mint" } :=
  c2_dex_priority [PROGRAMS_PUMP_FUN_TOKEN_MINT_AUTH, PROGRAMS_JUPITER]
    (by decide) (by decide)

/-- C7: the mint resolver returns a mint string only along the full
success path of the account query and the "unknown" sentinel (null) in
every other case; and a null mint on one leg does not stop the parser
from emitting the record with that leg's mint null. -/
theorem c7_mint_resolver_never_raises :
    (∀ (env : MintEnv) (addr : String),
      getTokenMintAddress env addr = none ∨
      ∃ (res : AccountInfoResult) (v : AcctValue) (dta : AcctData)
        (p : AcctParsed) (i : AcctInfo) (m : String),
        env addr = Except.ok res ∧ res.value = some v ∧ v.data = some dta ∧
        dta.parsed = some p ∧ p.info = some i ∧ i.mint = some m ∧ m ≠ "" ∧
        getTokenMintAddress env addr = some m) ∧
    (∀ (env : MintEnv) (txd : TxDetails) (dexInfo : DexInfo)
       (txList : List (Option TxDetail)) (d : TxDetail)
       (nb : NativeBalanceChange) (ft lt : TokenTransfer),
      txd = some txList → txList.head? = some (some d) →
      calculateNativeBalanceChanges txd = some nb →
      (extractTransfers d).head? = some ft →
      (extractTransfers d).getLast? = some lt →
      getTokenMintAddress env lt.source = none →
      ∃ r, parseTransaction env txd dexInfo = some r ∧ r.tokenIn.mint = none) := by
  constructor
  · intro env addr
    match henv : env addr with
    | Except.error e => exact Or.inl (by simp [getTokenMintAddress, henv])
    | Except.ok res =>
      match hv : res.value with
      | none => exact Or.inl (by simp [getTokenMintAddress, henv, hv])
      | some v =>
        match hd : v.data with
        | none => exact Or.inl (by simp [getTokenMintAddress, henv, hv, hd])
        | some dta =>
          match hp : dta.parsed with
          | none => exact Or.inl (by simp [getTokenMintAddress, henv, hv, hd, hp])
          | some p =>
            match hi : p.info with
            | none =>
              exact Or.inl (by simp [getTokenMintAddress, henv, hv, hd, hp, hi])
            | some i =>
              match hm : i.mint with
              | none =>
                exact Or.inl (by
                  simp [getTokenMintAddress, henv, hv, hd, hp, hi, hm])
              | some m =>
                by_cases he : m = ""
                · exact Or.inl (by
                    simp [getTokenMintAddress, henv, hv, hd, hp, hi, hm, he])
                · exact Or.inr ⟨res, v, dta, p, i, m, rfl, hv, hd, hp, hi, hm, he,
                    by simp [getTokenMintAddress, henv, hv, hd, hp, hi, hm, he]⟩
  · intro env txd dexInfo txList d nb ft lt h1 h2 h3 h4 h5 hmint
    refine ⟨_, parseTransaction_eq_some env txd dexInfo txList d nb ft lt
      h1 h2 h3 h4 h5, ?_⟩
    simpa using hmint

/-- C7 witness: with the query for "X" failing, the round-trip input is
still parsed, with tokenIn.mint null. -/
theorem c7_witness :
    ∃ r, parseTransaction mintEnvFailX txdRoundTrip dexJupiter = some r ∧
      r.tokenIn.mint = none :=
  c7_mint_resolver_never_raises.2 mintEnvFailX txdRoundTrip dexJupiter
    [some txDetailRT] txDetailRT { type := "buy", balanceChange := some 1 }
    ⟨5000000000, "X", "Y"⟩ ⟨5000000000, "X", "Y"⟩
    rfl rfl calcNative_roundTrip rfl rfl rfl

/-- C8: every emitted record's two amount strings are `toFixed(6)`
renderings of raw u64 transfer amounts scaled by 1e9, and those scaled
values are non-negative. -/
theorem c8_amounts_nonneg
    (env : MintEnv) (txd : TxDetails) (dexInfo : DexInfo) (r : ParsedSwap)
    (h : parseTransaction env txd dexInfo = some r) :
    ∃ aIn aOut : ℕ,
      r.tokenIn.amount = toFixed6 ((aIn : ℚ) / 1000000000) ∧
      r.tokenOut.amount = toFixed6 ((aOut : ℚ) / 1000000000) ∧
      (0 : ℚ) ≤ (aIn : ℚ) / 1000000000 ∧ (0 : ℚ) ≤ (aOut : ℚ) / 1000000000 := by
  obtain ⟨txList, d, nb, ft, lt, -, -, -, -, -, hr⟩ :=
    parseTransaction_some_inv env txd dexInfo r h
  subst hr
  exact ⟨lt.amount, ft.amount, rfl, rfl, by positivity, by positivity⟩

/-- C8 witness: the round-trip record's amounts arise from the raw amount
5e9 and are non-negative after scaling. -/
theorem c8_witness :
    ∃ aIn aOut : ℕ,
      swapRoundTrip.tokenIn.amount = toFixed6 ((aIn : ℚ) / 1000000000) ∧
      swapRoundTrip.tokenOut.amount = toFixed6 ((aOut : ℚ) / 1000000000) ∧
      (0 : ℚ) ≤ (aIn : ℚ) / 1000000000 ∧ (0 : ℚ) ≤ (aOut : ℚ) / 1000000000 :=
  c8_amounts_nonneg mintEnvA txdRoundTrip dexJupiter swapRoundTrip
    parse_roundTrip_eval

/-- C9: in every emitted record tokenIn.amount is the LAST extracted
transfer's amount scaled by 1e9 and tokenOut.amount the FIRST's, so each
amount pairs with the transfer that its leg's mint was resolved from. -/
theorem c9_amounts_pair_with_mint_transfers
    (env : MintEnv) (txd : TxDetails) (dexInfo : DexInfo)
    (txList : List (Option TxDetail)) (d : TxDetail) (nb : NativeBalanceChange)
    (ft lt : TokenTransfer)
    (h1 : txd = some txList) (h2 : txList.head? = some (some d))
    (h3 : calculateNativeBalanceChanges txd = some nb)
    (h4 : (extractTransfers d).head? = some ft)
    (h5 : (extractTransfers d).getLast? = some lt) :
    ∃ r, parseTransaction env txd dexInfo = some r ∧
      r.tokenIn.amount = toFixed6 ((lt.amount : ℚ) / 1000000000) ∧
      r.tokenIn.mint = getTokenMintAddress env lt.source ∧
      r.tokenOut.amount = toFixed6 ((ft.amount : ℚ) / 1000000000) ∧
      r.tokenOut.mint = getTokenMintAddress env ft.destination :=
  ⟨_, parseTransaction_eq_some env txd dexInfo txList d nb ft lt h1 h2 h3 h4 h5,
    rfl, rfl, rfl, rfl⟩

/-- C9 witness: instantiation at the round-trip input. -/
theorem c9_witness :
    ∃ r, parseTransaction mintEnvA txdRoundTrip dexJupiter = some r ∧
      r.tokenIn.amount = toFixed6 (((5000000000 : ℕ) : ℚ) / 1000000000) ∧
      r.tokenIn.mint = getTokenMintAddress mintEnvA "X" ∧
      r.tokenOut.amount = toFixed6 (((5000000000 : ℕ) : ℚ) / 1000000000) ∧
      r.tokenOut.mint = getTokenMintAddress mintEnvA "Y" :=
  c9_amounts_pair_with_mint_transfers mintEnvA txdRoundTrip dexJupiter
    [some txDetailRT] txDetailRT { type := "buy", balanceChange := some 1 }
    ⟨5000000000, "X", "Y"⟩ ⟨5000000000, "X", "Y"⟩
    rfl rfl calcNative_roundTrip rfl rfl

/-- C10: the formatter drops every key whose value is null/undefined —
removing such a key from the input changes nothing in the output — and in
particular a record with a null mint and an absent monitored wallet
formats with no line at all for those fields. -/
theorem c10_formatter_omits_null_fields :
    (∀ (pre : String) (l1 l2 : List (String × JValue)) (k : String),
      processFields pre (l1 ++ (k, JValue.jnull) :: l2) =
        processFields pre (l1 ++ l2)) ∧
    formatJsonToString (encodeParsedSwap
      { type := "buy", monitored_wallet := none,
        dex := some "Jupiter", operation := some "swap",
        tokenIn := { mint := none, amount := "5.000000" },
        tokenOut := { mint := some "MINTY", amount := "5.000000" },
        signature := some "SIG1" }) =
      "type: buy\ndex: Jupiter\noperation: swap\ntokenIn:\n  amount: 5.000000\ntokenOut:\n  mint: MINTY\n  amount: 5.000000\nsignature: SIG1" := by
  constructor
  · intro pre l1 l2 k
    induction l1 with
    | nil => simp [processFields]
    | cons hd tl ih =>
      obtain ⟨k', v'⟩ := hd
      cases v' <;> simp [processFields, ih]
  · simp only [formatJsonToString, encodeParsedSwap, optStr, processFields]
    rfl

end SolanaTracker
